import Mathlib

/-!
Shallow embedding of the probability module of the repository
(`src/probnum/probability.py`): the Distribution / Dirac / Normal /
RandomVariable algebra and its arithmetic dispatch.  Python numbers are
idealised as rationals, 1-d numpy arrays as lists of rationals and 2-d
arrays as lists of rows; integer-valued scalars are treated as Python
ints.  External numpy/scipy routines (exp, log, sqrt, the samplers) are
supplied as an explicit `StatsLib` record, mirroring the delegation to
the external statistics library in the source.
-/

namespace Probnum

/-- Error kinds raised by the embedded code, mirroring the Python
exception classes raised by the source (`NotImplementedError`,
`TypeError`, `ValueError`, `ZeroDivisionError`, `IndexError`).
`notModelled` marks inputs outside the domain of this idealisation
(e.g. fractional powers, whose float results are not rationals); no
claim is settled on a `notModelled` branch. -/
inductive Err where
  | notImplemented (msg : String)
  | typeError (msg : String)
  | valueError (msg : String)
  | zeroDivision (msg : String)
  | indexError (msg : String)
  | keyError (msg : String)
  | notModelled (msg : String)
deriving DecidableEq

/-- Python runtime values flowing through the arithmetic: scalars
(`num`), 1-d numpy arrays (`vec`), 2-d numpy arrays (`mat`) and
bound-method objects (`func` — needed because `Distribution.__matmul__`
uses `self.var` without calling it). -/
inductive PyVal where
  | num (q : ℚ)
  | vec (xs : List ℚ)
  | mat (rows : List (List ℚ))
  | func
deriving DecidableEq

/-- Elementwise application with numpy-style scalar broadcasting of a
total binary scalar operation (`+`, `-`, `*` on Python numbers and
arrays). -/
def liftBin (f : ℚ → ℚ → ℚ) : PyVal → PyVal → Except Err PyVal
  | .num a, .num b => .ok (.num (f a b))
  | .num a, .vec ys => .ok (.vec (ys.map (fun y => f a y)))
  | .vec xs, .num b => .ok (.vec (xs.map (fun x => f x b)))
  | .vec xs, .vec ys =>
      if xs.length = ys.length then .ok (.vec (List.zipWith f xs ys))
      else .error (.valueError "operands could not be broadcast together")
  | .num a, .mat m => .ok (.mat (m.map (fun row => row.map (fun y => f a y))))
  | .mat m, .num b => .ok (.mat (m.map (fun row => row.map (fun x => f x b))))
  | .mat m, .mat n =>
      if m.length = n.length then
        .ok (.mat (List.zipWith (fun r s => List.zipWith f r s) m n))
      else .error (.valueError "operands could not be broadcast together")
  | .mat _, .vec _ => .error (.notModelled "matrix-vector broadcasting")
  | .vec _, .mat _ => .error (.notModelled "matrix-vector broadcasting")
  | _, _ => .error (.typeError "unsupported operand type")

/-- Elementwise application of a total unary scalar operation. -/
def liftUn (f : ℚ → ℚ) : PyVal → Except Err PyVal
  | .num a => .ok (.num (f a))
  | .vec xs => .ok (.vec (xs.map f))
  | .mat m => .ok (.mat (m.map (fun r => r.map f)))
  | .func => .error (.typeError "bad operand type for unary operator")

/-- Python `+` on values. -/
def pyadd : PyVal → PyVal → Except Err PyVal := liftBin (· + ·)

/-- Python `-` on values. -/
def pysub : PyVal → PyVal → Except Err PyVal := liftBin (· - ·)

/-- Python `*` on values. -/
def pymul : PyVal → PyVal → Except Err PyVal := liftBin (· * ·)

/-- Python unary `-` (`operator.neg`). -/
def pyneg : PyVal → Except Err PyVal := liftUn (fun a => -a)

/-- Python unary `+` (`operator.pos`). -/
def pypos : PyVal → Except Err PyVal := liftUn (fun a => a)

/-- Python `abs` (`operator.abs`). -/
def pyabs : PyVal → Except Err PyVal := liftUn (fun a => |a|)

/-- Python `~x` (`operator.invert`, also spelled `operator.inv`): the
bitwise complement `-x-1`, defined for ints only; floats raise a
TypeError.  Integer-valued scalars are modelled as Python ints. -/
def pyinvert : PyVal → Except Err PyVal
  | .num q =>
      if q.den = 1 then .ok (.num (-q - 1))
      else .error (.typeError "bad operand type for unary invert")
  | .func => .error (.typeError "bad operand type for unary invert")
  | _ => .error (.notModelled "invert of an array")

/-- Python `/` (true division).  Scalar division by zero raises
`ZeroDivisionError` as in Python. -/
def pydiv : PyVal → PyVal → Except Err PyVal
  | .num a, .num b =>
      if b = 0 then .error (.zeroDivision "division by zero")
      else .ok (.num (a / b))
  | .vec xs, .num b =>
      if b = 0 then .error (.notModelled "array division by zero")
      else .ok (.vec (xs.map (fun x => x / b)))
  | .num a, .vec ys =>
      if ys.contains 0 then .error (.notModelled "array division by zero")
      else .ok (.vec (ys.map (fun y => a / y)))
  | .vec xs, .vec ys =>
      if xs.length = ys.length ∧ ¬ ys.contains 0 then
        .ok (.vec (List.zipWith (· / ·) xs ys))
      else .error (.notModelled "array division")
  | .func, _ => .error (.typeError "unsupported operand type for division")
  | _, .func => .error (.typeError "unsupported operand type for division")
  | _, _ => .error (.notModelled "matrix division")

/-- Python `**` (`pow` with `modulo=None`).  Integer exponents are exact
on rationals; fractional exponents produce irrational floats and are
outside this idealisation. -/
def pypow : PyVal → PyVal → Except Err PyVal
  | .num a, .num b =>
      if b.den = 1 then
        if a = 0 ∧ b.num < 0 then
          .error (.zeroDivision "zero cannot be raised to a negative power")
        else .ok (.num (a ^ b.num))
      else .error (.notModelled "non-integer exponent")
  | .vec xs, .num b =>
      if b.den = 1 ∧ 0 ≤ b.num then .ok (.vec (xs.map (fun x => x ^ b.num)))
      else .error (.notModelled "non-integer exponent")
  | .mat m, .num b =>
      if b.den = 1 ∧ 0 ≤ b.num then
        .ok (.mat (m.map (fun r => r.map (fun x => x ^ b.num))))
      else .error (.notModelled "non-integer exponent")
  | _, _ => .error (.typeError "unsupported operand type for pow")

/-- Dot product of two equal-length vectors. -/
def dotL (xs ys : List ℚ) : ℚ := (List.zipWith (· * ·) xs ys).sum

/-- Transpose of a matrix given as a list of rows. -/
def transposeL (m : List (List ℚ)) : List (List ℚ) :=
  (List.range (m.headD []).length).map (fun j => m.filterMap (fun row => row.get? j))

/-- Attribute `.T` of a numpy value: transpose (identity on scalars and
1-d arrays, as in numpy). -/
def pyT : PyVal → PyVal
  | .num q => .num q
  | .vec xs => .vec xs
  | .mat m => .mat (transposeL m)
  | .func => .func

/-- Python `@` (`operator.matmul`).  Defined between arrays of matching
dimensions; scalars and method objects are unsupported operands. -/
def pymatmul : PyVal → PyVal → Except Err PyVal
  | .vec xs, .vec ys =>
      if xs.length = ys.length then .ok (.num (dotL xs ys))
      else .error (.valueError "matmul dimension mismatch")
  | .vec xs, .mat m =>
      if xs.length = m.length then
        .ok (.vec ((transposeL m).map (fun col => dotL xs col)))
      else .error (.valueError "matmul dimension mismatch")
  | .mat m, .vec ys =>
      if m.all (fun row => row.length = ys.length) then
        .ok (.vec (m.map (fun row => dotL row ys)))
      else .error (.valueError "matmul dimension mismatch")
  | .mat _, .mat _ => .error (.notModelled "matrix-matrix product")
  | _, _ => .error (.typeError "unsupported operand type for matmul")

/-- Shape of a value as numpy reports it (scalars have the empty
shape). -/
def shapeOf : PyVal → List Nat
  | .num _ => []
  | .vec xs => [xs.length]
  | .mat m => [m.length, (m.headD []).length]
  | .func => []

/-- Dtype name derived from a value, as `np.dtype(type(x))` would
classify it under this idealisation. -/
def dtypeOf : PyVal → String
  | .num q => if q.den = 1 then "int" else "float"
  | .vec _ => "float"
  | .mat _ => "float"
  | .func => "object"

/-- Concrete type name of a raw value, as `x.__class__.__name__`. -/
def pyTypeName : PyVal → String
  | .num q => if q.den = 1 then "int" else "float"
  | .vec _ => "ndarray"
  | .mat _ => "ndarray"
  | .func => "method"

/-- The external statistics/array library the source delegates to
(numpy exp/log/sqrt, scipy.stats samplers).  Theorems quantify over it;
witnesses instantiate it with concrete functions. -/
structure StatsLib where
  expQ : ℚ → ℚ
  logQ : ℚ → ℚ
  sqrtV : PyVal → PyVal
  rvs : PyVal → PyVal → Nat → PyVal
  rvsMulti : PyVal → PyVal → Nat → PyVal

/-- Elementwise `np.exp`. -/
def pyExp (lib : StatsLib) : PyVal → Except Err PyVal := liftUn lib.expQ

/-- Elementwise `np.log`. -/
def pyLog (lib : StatsLib) : PyVal → Except Err PyVal := liftUn lib.logQ

/-- State of the base class `Distribution` (probability.py lines
315-327): the parameter dict and the optionally supplied capability
functions `_pdf`, `_logpdf`, `_cdf`, `_logcdf`, `_sample`, `_mean`,
`_var`.  The zero-argument Python lambdas `_mean`/`_var` are modelled
by their (possibly failing) evaluation results; `random_state` is not
tracked, since no claim concerns it. -/
structure Distribution where
  params : List (String × PyVal)
  pdfF : Option (PyVal → Except Err PyVal)
  logpdfF : Option (PyVal → Except Err PyVal)
  cdfF : Option (PyVal → Except Err PyVal)
  logcdfF : Option (PyVal → Except Err PyVal)
  sampleF : Option (Nat → Except Err PyVal)
  meanF : Option (Except Err PyVal)
  varF : Option (Except Err PyVal)

/-- The distribution produced by `Distribution()` with all capability
arguments left at their `None` defaults. -/
def Distribution.empty : Distribution :=
  ⟨[], none, none, none, none, none, none, none⟩

/-- Method pdf of Distribution (lines 367-386): call `_pdf` when
present, else derive `np.exp(self._logpdf(x))`, else raise
`NotImplementedError` naming the class. -/
def Distribution.pdf (lib : StatsLib) (d : Distribution) (x : PyVal) : Except Err PyVal :=
  match d.pdfF with
  | some f => f x
  | none =>
    match d.logpdfF with
    | some f => do
        let v ← f x
        pyExp lib v
    | none =>
        .error (.notImplemented
          "The function pdf is not implemented for object of class Distribution")

/-- Method logpdf of Distribution (lines 388-406).  The source guards
with `hasattr(self, ...)`, which is always true because `__init__`
always assigns the `_logpdf` attribute; so when `_logpdf` is `None` the
call `self._logpdf(x)` raises `TypeError`, and both the
`np.log(self._pdf(x))` fallback and the `NotImplementedError` branch
are unreachable. -/
def Distribution.logpdf (d : Distribution) (x : PyVal) : Except Err PyVal :=
  match d.logpdfF with
  | some f => f x
  | none => .error (.typeError "NoneType object is not callable")

/-- Method cdf of Distribution (lines 408-426): call `_cdf` when
present, else derive `np.exp(self._logcdf(x))`, else raise
`NotImplementedError`. -/
def Distribution.cdf (lib : StatsLib) (d : Distribution) (x : PyVal) : Except Err PyVal :=
  match d.cdfF with
  | some f => f x
  | none =>
    match d.logcdfF with
    | some f => do
        let v ← f x
        pyExp lib v
    | none =>
        .error (.notImplemented
          "The function cdf is not implemented for object of class Distribution")

/-- Method logcdf of Distribution (lines 428-446): call `_logcdf` when
present, else derive `np.log(self._cdf(x))`, else raise
`NotImplementedError`. -/
def Distribution.logcdf (lib : StatsLib) (d : Distribution) (x : PyVal) : Except Err PyVal :=
  match d.logcdfF with
  | some f => f x
  | none =>
    match d.cdfF with
    | some f => do
        let v ← f x
        pyLog lib v
    | none =>
        .error (.notImplemented
          "The function logcdf is not implemented for object of class Distribution")

/-- Method sample of Distribution (lines 448-464). -/
def Distribution.sample (d : Distribution) (size : Nat) : Except Err PyVal :=
  match d.sampleF with
  | some s => s size
  | none =>
      .error (.notImplemented
        "The function sample is not implemented for object of class Distribution")

/-- Method mean of Distribution (lines 477-491): prefer the `_mean`
function, else the parameter entry, else raise. -/
def Distribution.mean (d : Distribution) : Except Err PyVal :=
  match d.meanF with
  | some m => m
  | none =>
    match List.lookup "mean" d.params with
    | some v => .ok v
    | none =>
        .error (.notImplemented
          "The function mean is not implemented for object of class Distribution")

/-- Method var of Distribution (lines 493-507). -/
def Distribution.var (d : Distribution) : Except Err PyVal :=
  match d.varF with
  | some v => v
  | none =>
    match List.lookup "var" d.params with
    | some v => .ok v
    | none =>
        .error (.notImplemented
          "The function var is not implemented for object of class Distribution")

/-- State of a `Normal` (lines 927-944): the mean and covariance
parameters and the univariate/multivariate flag set at construction. -/
structure Normal where
  mean : PyVal
  cov : PyVal
  ismultivariate : Bool
deriving DecidableEq

/-- Constructor `Normal.__init__` (lines 927-944): scalar mean and cov
give the univariate mode; array mean and cov with
`mean.shape[0] == cov.shape[0] == cov.shape[1]` give the multivariate
mode; a 1-d cov makes the index expression `cov.shape[1]` raise an
IndexError; type combinations outside these raise the descriptive
ValueError. -/
def Normal.make : PyVal → PyVal → Except Err Normal
  | .num m, .num c => .ok ⟨.num m, .num c, false⟩
  | .vec m, .mat c =>
      if m.length = c.length ∧ m.length = (c.headD []).length then
        .ok ⟨.vec m, .mat c, true⟩
      else .error (.valueError "Shape mismatch of mean and covariance.")
  | .mat m, .mat c =>
      if m.length = c.length ∧ m.length = (c.headD []).length then
        .ok ⟨.mat m, .mat c, true⟩
      else .error (.valueError "Shape mismatch of mean and covariance.")
  | .vec _, .vec _ => .error (.indexError "tuple index out of range")
  | .mat _, .vec _ => .error (.indexError "tuple index out of range")
  | m, c =>
      .error (.valueError
        ("Cannot instantiate normal distribution with mean of type "
          ++ pyTypeName m ++ " and covariance of type " ++ pyTypeName c ++ "."))

/-- A runtime distribution object: an instance of the generic base
class, of `Dirac` (identified by its support parameter) or of
`Normal`. -/
inductive DistObj where
  | generic (d : Distribution)
  | dirac (support : PyVal)
  | normal (n : Normal)

/-- An arbitrary Python operand as received by the arithmetic methods:
a raw value or a distribution object. -/
inductive PyObj where
  | ofVal (v : PyVal)
  | ofDist (d : DistObj)

/-- Coercion `asdistribution` (lines 1199-1270) on the inputs the claims
exercise: distribution objects are returned unchanged (identity), raw
scalars and arrays are wrapped as `Dirac(support=x)`. -/
def asdistribution : PyObj → DistObj
  | .ofVal v => .dirac v
  | .ofDist d => d

/-- Concrete class name of an operand, as `other.__class__.__name__`
interpolated into the error messages. -/
def PyObj.className : PyObj → String
  | .ofVal v => pyTypeName v
  | .ofDist (.generic _) => "Distribution"
  | .ofDist (.dirac _) => "Dirac"
  | .ofDist (.normal _) => "Normal"

/-- The Python test `other == 0` as written in `__truediv__` (lines 581
and 1035): true for the scalar zero; arrays raise the ambiguous-truth
ValueError; distribution objects define no `__eq__`, so they fall back
to identity comparison and compare unequal to `0` — even a Dirac whose
support is zero. -/
def pyEqZero : PyObj → Except Err Bool
  | .ofVal (.num q) => .ok (decide (q = 0))
  | .ofVal (.vec _) => .error (.valueError "The truth value of an array is ambiguous")
  | .ofVal (.mat _) => .error (.valueError "The truth value of an array is ambiguous")
  | .ofVal .func => .ok false
  | .ofDist _ => .ok false

/-- The Python test `delta == 0` on a support value (lines 550 and
1012). -/
def pyValEqZero : PyVal → Except Err Bool
  | .num q => .ok (decide (q = 0))
  | .vec _ => .error (.valueError "The truth value of an array is ambiguous")
  | .mat _ => .error (.valueError "The truth value of an array is ambiguous")
  | .func => .ok false

/-- The generic result of `Distribution.__add__` with a Dirac operand
(lines 521-533): a fresh Distribution whose capabilities are closures
over `self` and the eagerly evaluated `delta = otherdist.mean()`; the
`var` capability is the bound method `self.var` passed directly. -/
def Distribution.addDirac (lib : StatsLib) (self : Distribution) (delta : PyVal) : DistObj :=
  .generic
    { params := []
      pdfF := some (fun x => do
        let y ← pysub x delta
        Distribution.pdf lib self y)
      logpdfF := some (fun x => do
        let y ← pysub x delta
        Distribution.logpdf self y)
      cdfF := some (fun x => do
        let y ← pysub x delta
        Distribution.cdf lib self y)
      logcdfF := some (fun x => do
        let y ← pysub x delta
        Distribution.logcdf lib self y)
      sampleF := some (fun size => do
        let s ← Distribution.sample self size
        pyadd s delta)
      meanF := some (do
        let m ← Distribution.mean self
        pyadd m delta)
      varF := some (Distribution.var self) }

/-- Operator `Distribution.__add__` (lines 521-536). -/
def Distribution.add (lib : StatsLib) (self : Distribution) (other : PyObj) : Except Err DistObj :=
  match asdistribution other with
  | .dirac s => .ok (Distribution.addDirac lib self s)
  | _ =>
      .error (.notImplemented
        ("Addition not implemented for Distribution and " ++ other.className ++ "."))

/-- Operator `Distribution.__sub__` (lines 538-544): defined as
`self + (-otherdist)`.  The negation mutates the Dirac operand in
place (see the store model below) and yields its negated support. -/
def Distribution.sub (lib : StatsLib) (self : Distribution) (other : PyObj) : Except Err DistObj :=
  match asdistribution other with
  | .dirac s => do
      let ns ← pyneg s
      .ok (Distribution.addDirac lib self ns)
  | _ =>
      .error (.notImplemented
        ("Subtraction not implemented for Distribution and " ++ other.className ++ "."))

/-- The generic result of `Distribution.__mul__` with a nonzero Dirac
operand (lines 553-561). -/
def Distribution.mulDirac (lib : StatsLib) (self : Distribution) (delta : PyVal) : DistObj :=
  .generic
    { params := []
      pdfF := some (fun x => do
        let y ← pydiv x delta
        Distribution.pdf lib self y)
      logpdfF := some (fun x => do
        let y ← pydiv x delta
        Distribution.logpdf self y)
      cdfF := some (fun x => do
        let y ← pydiv x delta
        Distribution.cdf lib self y)
      logcdfF := some (fun x => do
        let y ← pydiv x delta
        Distribution.logcdf lib self y)
      sampleF := some (fun size => do
        let s ← Distribution.sample self size
        pymul s delta)
      meanF := some (do
        let m ← Distribution.mean self
        pymul m delta)
      varF := some (do
        let v ← Distribution.var self
        let d2 ← pypow delta (.num 2)
        pymul v d2) }

/-- Operator `Distribution.__mul__` (lines 546-565): a zero Dirac
operand collapses to `Dirac(support=0 * self.mean())`. -/
def Distribution.mul (lib : StatsLib) (self : Distribution) (other : PyObj) : Except Err DistObj :=
  match asdistribution other with
  | .dirac delta => do
      let z ← pyValEqZero delta
      if z then do
        let m ← Distribution.mean self
        let zm ← pymul (.num 0) m
        .ok (.dirac zm)
      else .ok (Distribution.mulDirac lib self delta)
  | _ =>
      .error (.notImplemented
        ("Multiplication not implemented for Distribution and " ++ other.className ++ "."))

/-- Operator `Distribution.__matmul__` (lines 567-578).  The keyword
argument `var=delta @ self.var @ delta.T` is evaluated eagerly at the
call, and `self.var` there is the bound method object itself, not its
value, so the left matmul `delta @ self.var` raises a TypeError before
any distribution is constructed. -/
def Distribution.matmul (self : Distribution) (other : PyObj) : Except Err DistObj :=
  match asdistribution other with
  | .dirac delta => do
      let v1 ← pymatmul delta .func
      let v2 ← pymatmul v1 (pyT delta)
      .ok (.generic
        { params := []
          pdfF := none
          logpdfF := none
          cdfF := none
          logcdfF := none
          sampleF := some (fun size => do
            let s ← Distribution.sample self size
            pymatmul s delta)
          meanF := some (do
            let m ← Distribution.mean self
            pymatmul m delta)
          varF := some (.ok v2) })
  | _ =>
      .error (.notImplemented
        ("Matrix multiplication not implemented for Distribution and "
          ++ other.className ++ "."))

/-- Unary `Distribution.__neg__` (lines 666-675): sample and mean are
negated, `var` is passed through as the bound method. -/
def Distribution.neg (self : Distribution) : Distribution :=
  { params := []
    pdfF := none
    logpdfF := none
    cdfF := none
    logcdfF := none
    sampleF := some (fun size => do
      let s ← Distribution.sample self size
      pyneg s)
    meanF := some (do
      let m ← Distribution.mean self
      pyneg m)
    varF := some (Distribution.var self) }

/-- Unary `Distribution.__pos__` (lines 677-686). -/
def Distribution.pos (self : Distribution) : Distribution :=
  { params := []
    pdfF := none
    logpdfF := none
    cdfF := none
    logcdfF := none
    sampleF := some (fun size => do
      let s ← Distribution.sample self size
      pypos s)
    meanF := some (do
      let m ← Distribution.mean self
      pypos m)
    varF := some (Distribution.var self) }

/-- Unary `Distribution.__abs__` (lines 688-695): a sampling-only
distribution computing `abs` of samples; no mean, var or density. -/
def Distribution.abs (self : Distribution) : Distribution :=
  { params := []
    pdfF := none
    logpdfF := none
    cdfF := none
    logcdfF := none
    sampleF := some (fun size => do
      let s ← Distribution.sample self size
      pyabs s)
    meanF := none
    varF := none }

/-- Unary `Distribution.__invert__` (lines 697-704): identical to
`__abs__` in the source, including the use of `operator.abs` in the
sampling closure. -/
def Distribution.inv (self : Distribution) : Distribution :=
  { params := []
    pdfF := none
    logpdfF := none
    cdfF := none
    logcdfF := none
    sampleF := some (fun size => do
      let s ← Distribution.sample self size
      pyabs s)
    meanF := none
    varF := none }

/-- Operator `Distribution.__truediv__` (lines 580-589): `other == 0`
raises `ZeroDivisionError`; otherwise a Dirac divisor is inverted with
`operator.inv` (the bitwise invert of its support, in place) and the
result is `self * otherdist`. -/
def Distribution.truediv (lib : StatsLib) (self : Distribution) (other : PyObj) : Except Err DistObj := do
  let z ← pyEqZero other
  if z then .error (.zeroDivision "Division by zero not supported.")
  else
    match asdistribution other with
    | .dirac s => do
        let s2 ← pyinvert s
        Distribution.mul lib self (.ofDist (.dirac s2))
    | _ =>
        .error (.notImplemented
          ("Division not implemented for Distribution and " ++ other.className ++ "."))

/-- Operator `Distribution.__pow__` (lines 591-593): always raises. -/
def Distribution.powOp (self : Distribution) (power : PyObj) : Except Err DistObj :=
  .error (.notImplemented
    ("Exponentiation not implemented for Distribution and " ++ power.className ++ "."))

/-- Reflected `Distribution.__rsub__` (lines 604-610):
`operator.neg(self) + otherdist`. -/
def Distribution.rsub (lib : StatsLib) (self : Distribution) (other : PyObj) : Except Err DistObj :=
  match asdistribution other with
  | .dirac s => .ok (Distribution.addDirac lib (Distribution.neg self) s)
  | _ =>
      .error (.notImplemented
        ("Subtraction not implemented for " ++ other.className ++ " and Distribution."))

/-- Reflected `Distribution.__rmatmul__` (lines 621-632): the eager
`var=delta @ self.var @ delta.T` raises as in `__matmul__`; the mean
closure `lambda: delta @ self.mean` also fails to call the method. -/
def Distribution.rmatmul (self : Distribution) (other : PyObj) : Except Err DistObj :=
  match asdistribution other with
  | .dirac delta => do
      let v1 ← pymatmul delta .func
      let v2 ← pymatmul v1 (pyT delta)
      .ok (.generic
        { params := []
          pdfF := none
          logpdfF := none
          cdfF := none
          logcdfF := none
          sampleF := some (fun size => do
            let s ← Distribution.sample self size
            pymatmul delta s)
          meanF := some (pymatmul delta .func)
          varF := some (.ok v2) })
  | _ =>
      .error (.notImplemented
        ("Matrix multiplication not implemented for " ++ other.className
          ++ " and Distribution."))

/-- Reflected `Distribution.__rtruediv__` (lines 634-640):
`operator.inv(self) * otherdist`. -/
def Distribution.rtruediv (lib : StatsLib) (self : Distribution) (other : PyObj) : Except Err DistObj :=
  match asdistribution other with
  | .dirac s => Distribution.mul lib (Distribution.inv self) (.ofDist (.dirac s))
  | _ =>
      .error (.notImplemented
        ("Division not implemented for " ++ other.className ++ " and Distribution."))

/-- Diagonal of a covariance matrix, as `np.diag`. -/
def pyDiag : PyVal → Except Err PyVal
  | .mat m => .ok (.vec (m.enum.filterMap (fun p => p.2.get? p.1)))
  | _ => .error (.notModelled "diag of a non-matrix")

/-- Method var of Normal (lines 982-986): the full cov for univariate,
the diagonal of cov for multivariate. -/
def Normal.var (n : Normal) : Except Err PyVal :=
  if n.ismultivariate then pyDiag n.cov else .ok n.cov

/-- Method sample of Normal (lines 971-977): delegates to the external
sampler, passing the standard deviation `np.sqrt(self.var())` as scale
in the univariate case. -/
def Normal.sample (lib : StatsLib) (n : Normal) (size : Nat) : Except Err PyVal :=
  if n.ismultivariate then .ok (lib.rvsMulti n.mean n.cov size)
  else do
    let v ← Normal.var n
    .ok (lib.rvs n.mean (lib.sqrtV v) size)

/-- Operator `Normal.__add__` (lines 989-998): a Dirac operand shifts
the mean, the covariance is unchanged, and a new Normal is
constructed. -/
def Normal.add (n : Normal) (other : PyObj) : Except Err DistObj :=
  match asdistribution other with
  | .dirac delta => do
      let m ← pyadd n.mean delta
      let nd ← Normal.make m n.cov
      .ok (.normal nd)
  | _ =>
      .error (.notImplemented
        ("Addition not implemented for Normal and " ++ other.className ++ "."))

/-- Operator `Normal.__sub__` (lines 1000-1006): `self + (-otherdist)`;
the negation mutates the Dirac operand in place (see the store model)
and yields its negated support. -/
def Normal.sub (n : Normal) (other : PyObj) : Except Err DistObj :=
  match asdistribution other with
  | .dirac delta => do
      let nd ← pyneg delta
      Normal.add n (.ofDist (.dirac nd))
  | _ =>
      .error (.notImplemented
        ("Subtraction not implemented for Normal and " ++ other.className ++ "."))

/-- Operator `Normal.__mul__` (lines 1008-1021): a zero Dirac collapses
to `Dirac(support=0 * self.mean())`, a nonzero Dirac scales mean by
delta and cov by delta squared in a new Normal. -/
def Normal.mul (n : Normal) (other : PyObj) : Except Err DistObj :=
  match asdistribution other with
  | .dirac delta => do
      let z ← pyValEqZero delta
      if z then do
        let zm ← pymul (.num 0) n.mean
        .ok (.dirac zm)
      else do
        let m ← pymul n.mean delta
        let d2 ← pypow delta (.num 2)
        let c ← pymul n.cov d2
        let nd ← Normal.make m c
        .ok (.normal nd)
  | _ =>
      .error (.notImplemented
        ("Multiplication not implemented for Normal and " ++ other.className ++ "."))

/-- Reflected `Normal.__rmul__` (lines 1066-1073), reached by
`scalar * Normal`: re-routes through `self * otherdist`. -/
def Normal.rmul (n : Normal) (other : PyObj) : Except Err DistObj :=
  match asdistribution other with
  | .dirac delta => Normal.mul n (.ofDist (.dirac delta))
  | _ =>
      .error (.notImplemented
        ("Multiplication not implemented for " ++ other.className ++ " and Normal."))

/-- Operator `Normal.__matmul__` (lines 1023-1032): affine map of the
parameters, constructing a new Normal. -/
def Normal.matmul (n : Normal) (other : PyObj) : Except Err DistObj :=
  match asdistribution other with
  | .dirac delta => do
      let m ← pymatmul n.mean delta
      let t ← pymatmul delta n.cov
      let c ← pymatmul t (pyT delta)
      let nd ← Normal.make m c
      .ok (.normal nd)
  | _ =>
      .error (.notImplemented
        ("Matrix multiplication not implemented for Normal and "
          ++ other.className ++ "."))

/-- Reflected `Normal.__rmatmul__` (lines 1075-1084). -/
def Normal.rmatmul (n : Normal) (other : PyObj) : Except Err DistObj :=
  match asdistribution other with
  | .dirac delta => do
      let m ← pymatmul delta n.mean
      let t ← pymatmul delta n.cov
      let c ← pymatmul t (pyT delta)
      let nd ← Normal.make m c
      .ok (.normal nd)
  | _ =>
      .error (.notImplemented
        ("Matrix multiplication not implemented for " ++ other.className
          ++ " and Normal."))

/-- Operator `Normal.__truediv__` (lines 1034-1043): same shape as the
generic `__truediv__`, routed through `Normal.__mul__`. -/
def Normal.truediv (n : Normal) (other : PyObj) : Except Err DistObj := do
  let z ← pyEqZero other
  if z then .error (.zeroDivision "Division by zero not supported.")
  else
    match asdistribution other with
    | .dirac s => do
        let s2 ← pyinvert s
        Normal.mul n (.ofDist (.dirac s2))
    | _ =>
        .error (.notImplemented
          ("Division not implemented for Normal and " ++ other.className ++ "."))

/-- Operator `Normal.__pow__` (lines 1045-1047): always raises, naming
the two operand classes. -/
def Normal.powOp (n : Normal) (power : PyObj) : Except Err DistObj :=
  .error (.notImplemented
    ("Exponentiation not implemented for Normal and " ++ power.className ++ "."))

/-- Unary `Normal.__neg__` (lines 1118-1125): a new Normal with negated
mean; any exception is converted to NotImplementedError by the
try/except wrapper. -/
def Normal.negN (n : Normal) : Except Err Normal :=
  match (do
    let m ← pyneg n.mean
    Normal.make m n.cov : Except Err Normal) with
  | .ok r => .ok r
  | .error _ => .error (.notImplemented "Negation not implemented for Normal.")

/-- Reflected `Normal.__rsub__` (lines 1058-1064):
`operator.neg(self) + otherdist`. -/
def Normal.rsub (n : Normal) (other : PyObj) : Except Err DistObj :=
  match asdistribution other with
  | .dirac s => do
      let n2 ← Normal.negN n
      Normal.add n2 (.ofDist (.dirac s))
  | _ =>
      .error (.notImplemented
        ("Subtraction not implemented for " ++ other.className ++ " and Normal."))

/-- Unary `Normal.__abs__` (lines 1136-1144): a sampling-only generic
Distribution, with no mean, var or density. -/
def Normal.absN (lib : StatsLib) (n : Normal) : Distribution :=
  { params := []
    pdfF := none
    logpdfF := none
    cdfF := none
    logcdfF := none
    sampleF := some (fun size => do
      let s ← Normal.sample lib n size
      pyabs s)
    meanF := none
    varF := none }

/-- Unary `Normal.__invert__` (lines 1146-1153): identical to
`__abs__`, including the use of `operator.abs` in the closure. -/
def Normal.invN (lib : StatsLib) (n : Normal) : Distribution :=
  { params := []
    pdfF := none
    logpdfF := none
    cdfF := none
    logcdfF := none
    sampleF := some (fun size => do
      let s ← Normal.sample lib n size
      pyabs s)
    meanF := none
    varF := none }

/-- Reflected `Normal.__rtruediv__` (lines 1086-1092):
`operator.inv(self) * otherdist`, where inversion of a Normal is the
sampling-only generic distribution `Normal.invN`. -/
def Normal.rtruediv (lib : StatsLib) (n : Normal) (other : PyObj) : Except Err DistObj :=
  match asdistribution other with
  | .dirac s => Distribution.mul lib (Normal.invN lib n) (.ofDist (.dirac s))
  | _ =>
      .error (.notImplemented
        ("Division not implemented for " ++ other.className ++ " and Normal."))

/-- Method sample of Dirac (lines 755-759): `size == 1` returns the raw
support value; any other size broadcasts it over `np.ones(size)`. -/
def Dirac.sample (support : PyVal) (size : Nat) : Except Err PyVal :=
  if size = 1 then .ok support
  else pymul support (.vec (List.replicate size 1))

/-- Operator `Dirac.__add__` (lines 762-768), by its value: when the
other operand is a Dirac, the supports are added (the in-place update
of self is captured by the store model below); otherwise the call is
delegated to `other.__add__(other=self)`. -/
def Dirac.add (lib : StatsLib) (support : PyVal) (other : PyObj) : Except Err DistObj :=
  match asdistribution other with
  | .dirac s2 => do
      let v ← pyadd support s2
      .ok (.dirac v)
  | .generic g => Distribution.add lib g (.ofDist (.dirac support))
  | .normal n => Normal.add n (.ofDist (.dirac support))

/-- Operator `Dirac.__sub__` (lines 770-776); the non-Dirac case is
delegated to `other.__rsub__(other=self)`. -/
def Dirac.sub (lib : StatsLib) (support : PyVal) (other : PyObj) : Except Err DistObj :=
  match asdistribution other with
  | .dirac s2 => do
      let v ← pysub support s2
      .ok (.dirac v)
  | .generic g => Distribution.rsub lib g (.ofDist (.dirac support))
  | .normal n => Normal.rsub n (.ofDist (.dirac support))

/-- Operator `Dirac.__mul__` (lines 778-784); the non-Dirac case is
delegated to `other.__mul__(other=self)`. -/
def Dirac.mul (lib : StatsLib) (support : PyVal) (other : PyObj) : Except Err DistObj :=
  match asdistribution other with
  | .dirac s2 => do
      let v ← pymul support s2
      .ok (.dirac v)
  | .generic g => Distribution.mul lib g (.ofDist (.dirac support))
  | .normal n => Normal.mul n (.ofDist (.dirac support))

/-- Operator `Dirac.__matmul__` (lines 786-792); the non-Dirac case is
delegated to `other.__rmatmul__(other=self)`. -/
def Dirac.matmul (support : PyVal) (other : PyObj) : Except Err DistObj :=
  match asdistribution other with
  | .dirac s2 => do
      let v ← pymatmul support s2
      .ok (.dirac v)
  | .generic g => Distribution.rmatmul g (.ofDist (.dirac support))
  | .normal n => Normal.rmatmul n (.ofDist (.dirac support))

/-- Operator `Dirac.__truediv__` (lines 794-800); the non-Dirac case is
delegated to `other.__rtruediv__(other=self)`. -/
def Dirac.truediv (lib : StatsLib) (support : PyVal) (other : PyObj) : Except Err DistObj :=
  match asdistribution other with
  | .dirac s2 => do
      let v ← pydiv support s2
      .ok (.dirac v)
  | .generic g => Distribution.rtruediv lib g (.ofDist (.dirac support))
  | .normal n => Normal.rtruediv lib n (.ofDist (.dirac support))

/-- Operator `Dirac.__pow__` (lines 802-808): supports are combined with
`pow` when the other operand is a Dirac; otherwise the source calls
`power.__rtruediv__(other=self, modulo=modulo)`, which raises a
TypeError since no `__rtruediv__` accepts a `modulo` keyword. -/
def Dirac.powOp (support : PyVal) (other : PyObj) : Except Err DistObj :=
  match asdistribution other with
  | .dirac s2 => do
      let v ← pypow support s2
      .ok (.dirac v)
  | _ => .error (.typeError "rtruediv got an unexpected keyword argument modulo")

/-- Python `operator.add` on two distribution objects: dispatch goes to
the left operand, whose `__add__` handles every case (possibly by
explicit delegation), so no reflected fallback is reached. -/
def DistObj.addOp (lib : StatsLib) : DistObj → DistObj → Except Err DistObj
  | .generic g, o => Distribution.add lib g (.ofDist o)
  | .normal n, o => Normal.add n (.ofDist o)
  | .dirac s, o => Dirac.add lib s (.ofDist o)

/-- Python `operator.sub` on two distribution objects. -/
def DistObj.subOp (lib : StatsLib) : DistObj → DistObj → Except Err DistObj
  | .generic g, o => Distribution.sub lib g (.ofDist o)
  | .normal n, o => Normal.sub n (.ofDist o)
  | .dirac s, o => Dirac.sub lib s (.ofDist o)

/-- Python `operator.mul` on two distribution objects. -/
def DistObj.mulOp (lib : StatsLib) : DistObj → DistObj → Except Err DistObj
  | .generic g, o => Distribution.mul lib g (.ofDist o)
  | .normal n, o => Normal.mul n (.ofDist o)
  | .dirac s, o => Dirac.mul lib s (.ofDist o)

/-- Python `operator.matmul` on two distribution objects. -/
def DistObj.matmulOp : DistObj → DistObj → Except Err DistObj
  | .generic g, o => Distribution.matmul g (.ofDist o)
  | .normal n, o => Normal.matmul n (.ofDist o)
  | .dirac s, o => Dirac.matmul s (.ofDist o)

/-- Python `operator.truediv` on two distribution objects. -/
def DistObj.truedivOp (lib : StatsLib) : DistObj → DistObj → Except Err DistObj
  | .generic g, o => Distribution.truediv lib g (.ofDist o)
  | .normal n, o => Normal.truediv n (.ofDist o)
  | .dirac s, o => Dirac.truediv lib s (.ofDist o)

/-- Python `operator.pow` on two distribution objects. -/
def DistObj.powsOp : DistObj → DistObj → Except Err DistObj
  | .generic g, o => Distribution.powOp g (.ofDist o)
  | .normal n, o => Normal.powOp n (.ofDist o)
  | .dirac s, o => Dirac.powOp s (.ofDist o)

/-- Method mean of a runtime distribution object: the base capability
lookup for generics, the support for Dirac (lines 749-750), the mean
parameter for Normal (lines 979-980). -/
def DistObj.mean : DistObj → Except Err PyVal
  | .generic g => Distribution.mean g
  | .dirac s => .ok s
  | .normal n => .ok n.mean

/-- Method sample of a runtime distribution object. -/
def DistObj.sample (lib : StatsLib) : DistObj → Nat → Except Err PyVal
  | .generic g, size => Distribution.sample g size
  | .dirac s, size => Dirac.sample s size
  | .normal n, size => Normal.sample lib n size

/-- State of a RandomVariable: shape, dtype and the wrapped
distribution (lines 46-76). -/
structure RandomVariable where
  shape : List Nat
  dtype : Option String
  dist : DistObj

/-- Constructor `RandomVariable.__init__` (lines 46-76).  The guard
`distribution.mean is not None` is always true (mean is a bound
method), so `distribution.mean()` is always evaluated and any error it
raises propagates out of the constructor; the shape of the mean must
equal the supplied shape (default the scalar shape `()`), and the dtype
is re-derived from the mean, overriding the supplied one. -/
def RandomVariable.make (shape : List Nat) (dtype : Option String) (d : DistObj) : Except Err RandomVariable := do
  let m ← DistObj.mean d
  if shapeOf m = shape then .ok ⟨shapeOf m, some (dtypeOf m), d⟩
  else .error (.valueError "Shape of distribution mean and given shape do not match.")

/-- An operand of a RandomVariable operator: another RandomVariable or
a raw constant. -/
inductive RVObj where
  | ofRV (rv : RandomVariable)
  | ofVal (v : PyVal)

/-- Coercion `asrandomvariable` (lines 1156-1196) on the inputs the
claims exercise: identity on RandomVariables; scalars and arrays are
wrapped as `RandomVariable(shape, dtype, Dirac(support=x))`. -/
def asrandomvariable : RVObj → Except Err RandomVariable
  | .ofRV rv => .ok rv
  | .ofVal v =>
    match v with
    | .num q => RandomVariable.make [] (some (dtypeOf (.num q))) (.dirac (.num q))
    | .vec xs => RandomVariable.make [xs.length] (some "float") (.dirac (.vec xs))
    | .mat m =>
        RandomVariable.make [m.length, (m.headD []).length] (some "float") (.dirac (.mat m))
    | .func =>
        .error (.valueError "Argument of type method cannot be converted to a random variable.")

/-- Combinator `RandomVariable._rv_from_op` (lines 171-188): coerce the
other operand, apply the distribution-level operator, and wrap the
resulting distribution in a fresh RandomVariable constructed with the
default arguments (scalar shape, no dtype). -/
def RandomVariable.rvFromOp (op : DistObj → DistObj → Except Err DistObj)
    (a : RandomVariable) (other : RVObj) : Except Err RandomVariable := do
  let orv ← asrandomvariable other
  let d ← op a.dist orv.dist
  RandomVariable.make [] none d

/-- Operator `RandomVariable.__add__` (lines 190-191). -/
def RandomVariable.add (lib : StatsLib) (a : RandomVariable) (other : RVObj) : Except Err RandomVariable :=
  RandomVariable.rvFromOp (DistObj.addOp lib) a other

/-- Operator `RandomVariable.__sub__` (lines 193-194). -/
def RandomVariable.sub (lib : StatsLib) (a : RandomVariable) (other : RVObj) : Except Err RandomVariable :=
  RandomVariable.rvFromOp (DistObj.subOp lib) a other

/-- Operator `RandomVariable.__mul__` (lines 196-197). -/
def RandomVariable.mul (lib : StatsLib) (a : RandomVariable) (other : RVObj) : Except Err RandomVariable :=
  RandomVariable.rvFromOp (DistObj.mulOp lib) a other

/-- Operator `RandomVariable.__matmul__` (lines 199-200). -/
def RandomVariable.matmul (a : RandomVariable) (other : RVObj) : Except Err RandomVariable :=
  RandomVariable.rvFromOp DistObj.matmulOp a other

/-- Operator `RandomVariable.__truediv__` (lines 202-203). -/
def RandomVariable.truediv (lib : StatsLib) (a : RandomVariable) (other : RVObj) : Except Err RandomVariable :=
  RandomVariable.rvFromOp (DistObj.truedivOp lib) a other

/-- Operator `RandomVariable.__pow__` (lines 205-206). -/
def RandomVariable.powOp (a : RandomVariable) (other : RVObj) : Except Err RandomVariable :=
  RandomVariable.rvFromOp DistObj.powsOp a other

/-- Heap of live Dirac objects: the support parameter of each instance,
indexed by object identity.  This captures the in-place updates that
the Dirac operators perform on `self.parameters` (lines 762-808 and
879-893); the value-level definitions above describe the same
operations by the values they produce. -/
abbrev DiracStore := List PyVal

/-- Reading the support parameter of a live Dirac object. -/
def storeGet (st : DiracStore) (r : Nat) : Except Err PyVal :=
  match st.get? r with
  | some v => .ok v
  | none => .error (.keyError "dangling Dirac reference")

/-- The shared shape of the six binary Dirac operators when the other
operand is also a Dirac (lines 762-808): read both supports, write the
combined value into the left object and return that same object. -/
def Dirac.binS (op : PyVal → PyVal → Except Err PyVal) (st : DiracStore) (r1 r2 : Nat) :
    Except Err (DiracStore × Nat) := do
  let v1 ← storeGet st r1
  let v2 ← storeGet st r2
  let v ← op v1 v2
  .ok (st.set r1 v, r1)

/-- Operator `Dirac.__add__` between two live Diracs (lines 762-766). -/
def Dirac.addS : DiracStore → Nat → Nat → Except Err (DiracStore × Nat) := Dirac.binS pyadd

/-- Operator `Dirac.__sub__` between two live Diracs (lines 770-774). -/
def Dirac.subS : DiracStore → Nat → Nat → Except Err (DiracStore × Nat) := Dirac.binS pysub

/-- Operator `Dirac.__mul__` between two live Diracs (lines 778-782). -/
def Dirac.mulS : DiracStore → Nat → Nat → Except Err (DiracStore × Nat) := Dirac.binS pymul

/-- Operator `Dirac.__matmul__` between two live Diracs (lines 786-790). -/
def Dirac.matmulS : DiracStore → Nat → Nat → Except Err (DiracStore × Nat) := Dirac.binS pymatmul

/-- Operator `Dirac.__truediv__` between two live Diracs (lines 794-798). -/
def Dirac.truedivS : DiracStore → Nat → Nat → Except Err (DiracStore × Nat) := Dirac.binS pydiv

/-- Operator `Dirac.__pow__` between two live Diracs (lines 802-806). -/
def Dirac.powS : DiracStore → Nat → Nat → Except Err (DiracStore × Nat) := Dirac.binS pypow

/-- The shared shape of the four unary Dirac operators (lines 879-893):
overwrite the support in place and return the same object. -/
def Dirac.unS (op : PyVal → Except Err PyVal) (st : DiracStore) (r : Nat) :
    Except Err (DiracStore × Nat) := do
  let v ← storeGet st r
  let v2 ← op v
  .ok (st.set r v2, r)

/-- Unary `Dirac.__neg__` (lines 879-881). -/
def Dirac.negS : DiracStore → Nat → Except Err (DiracStore × Nat) := Dirac.unS pyneg

/-- Unary `Dirac.__pos__` (lines 883-885). -/
def Dirac.posS : DiracStore → Nat → Except Err (DiracStore × Nat) := Dirac.unS pypos

/-- Unary `Dirac.__abs__` (lines 887-889). -/
def Dirac.absS : DiracStore → Nat → Except Err (DiracStore × Nat) := Dirac.unS pyabs

/-- Unary `Dirac.__invert__` (lines 891-893): `operator.invert` on the
support. -/
def Dirac.invS : DiracStore → Nat → Except Err (DiracStore × Nat) := Dirac.unS pyinvert

/-- Operator `Distribution.__sub__` with a live Dirac operand (lines
538-544): `asdistribution` returns the very operand object, so the
negation in `self + (-otherdist)` mutates it in place before the
addition reads its mean. -/
def Distribution.subS (lib : StatsLib) (self : Distribution) (st : DiracStore) (r : Nat) :
    Except Err (DiracStore × DistObj) := do
  let (st1, r1) ← Dirac.negS st r
  let delta ← storeGet st1 r1
  .ok (st1, Distribution.addDirac lib self delta)

/-- Operator `Normal.__sub__` with a live Dirac operand (lines
1000-1006): the same in-place negation of the operand, followed by
`Normal.__add__`. -/
def Normal.subS (n : Normal) (st : DiracStore) (r : Nat) :
    Except Err (DiracStore × DistObj) := do
  let (st1, r1) ← Dirac.negS st r
  let delta ← storeGet st1 r1
  let m ← pyadd n.mean delta
  let nd ← Normal.make m n.cov
  .ok (st1, .normal nd)

/-- Bind of an ok value in the Except monad, for rewriting. -/
@[simp] theorem except_bind_ok {α β : Type} (a : α) (f : α → Except Err β) :
    (Bind.bind (Except.ok a) f : Except Err β) = f a := rfl

/-- Bind of an error in the Except monad, for rewriting. -/
@[simp] theorem except_bind_err {α β : Type} (e : Err) (f : α → Except Err β) :
    (Bind.bind (Except.error e) f : Except Err β) = Except.error e := rfl

/-- Bind of an ok value, spelled with the bare projection. -/
@[simp] theorem except_bare_bind_ok {α β : Type} (a : α) (f : α → Except Err β) :
    (Except.ok a : Except Err α).bind f = f a := rfl

/-- Bind of an error, spelled with the bare projection. -/
@[simp] theorem except_bare_bind_err {α β : Type} (e : Err) (f : α → Except Err β) :
    (Except.error e : Except Err α).bind f = Except.error e := rfl

/-- Reading back the slot just written in a store. -/
theorem storeGet_set {st : DiracStore} {r : Nat} {v : PyVal} (w : PyVal)
    (h : storeGet st r = .ok v) : storeGet (st.set r w) r = .ok w := by
  unfold storeGet at h ⊢
  have hr : r < st.length := by
    by_contra hge
    rw [List.get?_eq_none.mpr (Nat.le_of_not_lt hge)] at h
    exact Except.noConfusion h
  rw [List.get?_set_eq, List.get?_eq_get hr]
  simp

/-- A concrete statistics library instance used by closed statements. -/
def libZero : StatsLib :=
  { expQ := fun q => q
    logQ := fun q => q
    sqrtV := fun v => v
    rvs := fun _ _ _ => .num 0
    rvsMulti := fun _ _ _ => .num 0 }

/-- A successful Normal construction stores exactly the given mean and
covariance parameters. -/
theorem normal_make_fields {m c : PyVal} {nd : Normal} (h : Normal.make m c = .ok nd) :
    nd.mean = m ∧ nd.cov = c := by
  cases m <;> cases c <;> simp only [Normal.make] at h <;>
    (try split at h) <;> (try cases h) <;> exact ⟨rfl, rfl⟩

/-- C1: adding a Dirac to a Normal returns a new Normal whose mean is
the shifted mean and whose covariance is unchanged (in general whenever
the shifted mean and the constructor are defined, and unconditionally
in the univariate scalar case); multiplying a Normal by a nonzero
scalar delta returns a new Normal with mean delta times m and
covariance delta squared times C; delta equal to zero collapses to the
Dirac point mass at 0 times the mean; in particular
2 * Normal(mean=1/2, cov=1) - 1 has parameters mean 0 and cov 4. -/
theorem claim1_normal_affine :
    (∀ (n : Normal) (delta m2 : PyVal) (nd : Normal),
      pyadd n.mean delta = .ok m2 → Normal.make m2 n.cov = .ok nd →
      Normal.add n (.ofDist (.dirac delta)) = .ok (.normal nd) ∧
        nd.mean = m2 ∧ nd.cov = n.cov) ∧
    (∀ m c d : ℚ,
      Normal.add ⟨.num m, .num c, false⟩ (.ofDist (.dirac (.num d)))
        = .ok (.normal ⟨.num (m + d), .num c, false⟩)) ∧
    (∀ m c d : ℚ, d ≠ 0 →
      Normal.rmul ⟨.num m, .num c, false⟩ (.ofVal (.num d))
        = .ok (.normal ⟨.num (m * d), .num (c * d ^ (2 : ℤ)), false⟩)) ∧
    (∀ m c : ℚ,
      Normal.rmul ⟨.num m, .num c, false⟩ (.ofVal (.num 0))
        = .ok (.dirac (.num (0 * m)))) ∧
    (Normal.rmul ⟨.num (1/2), .num 1, false⟩ (.ofVal (.num 2))
        = .ok (.normal ⟨.num 1, .num 4, false⟩) ∧
      Normal.sub ⟨.num 1, .num 4, false⟩ (.ofVal (.num 1))
        = .ok (.normal ⟨.num 0, .num 4, false⟩)) := by
  refine ⟨?_, ?_, ?_, ?_, ?_, ?_⟩
  · intro n delta m2 nd h1 h2
    refine ⟨?_, normal_make_fields h2⟩
    simp [Normal.add, asdistribution, h1, h2]
  · intro m c d
    rfl
  · intro m c d h
    simp [Normal.rmul, Normal.mul, asdistribution, pyValEqZero, h, pymul, pypow, liftBin,
      Normal.make]
  · intro m c
    rfl
  · norm_num [Normal.rmul, Normal.mul, asdistribution, pyValEqZero, pymul, pypow, liftBin,
      Normal.make]
  · norm_num [Normal.sub, asdistribution, pyneg, liftUn, Normal.add, pyadd, liftBin,
      Normal.make]

/-- C1 witness: the affine rules evaluated at concrete parameters. -/
theorem claim1_witness :
    (Normal.add ⟨.num 7, .num 2, false⟩ (.ofDist (.dirac (.num 4)))
        = .ok (.normal ⟨.num (7 + 4), .num 2, false⟩)) ∧
    (Normal.rmul ⟨.num 3, .num 5, false⟩ (.ofVal (.num 2))
        = .ok (.normal ⟨.num (3 * 2), .num (5 * 2 ^ (2 : ℤ)), false⟩)) :=
  ⟨(claim1_normal_affine.1 ⟨.num 7, .num 2, false⟩ (.num 4) (.num (7 + 4))
      ⟨.num (7 + 4), .num 2, false⟩ rfl rfl).1,
    claim1_normal_affine.2.2.1 3 5 2 (by norm_num)⟩

/-- C2: the base evaluation methods dispatch on the optional capability
functions: pdf calls the supplied pdf, else derives exp of logpdf, else
raises a capability error naming the class; cdf and logcdf behave
symmetrically with exp and log.  But logpdf deviates: its guard
`hasattr(self, ...)` is always true, so with only a pdf supplied the
call invokes the absent function (None) and raises a TypeError instead
of deriving log of pdf or raising the capability error. -/
theorem claim2_capability_dispatch :
    ∀ (lib : StatsLib) (f : PyVal → Except Err PyVal) (x : PyVal),
      (Distribution.pdf lib { Distribution.empty with logpdfF := some f } x
          = (Distribution.logpdf { Distribution.empty with logpdfF := some f } x).bind
              (pyExp lib)) ∧
      (Distribution.cdf lib { Distribution.empty with logcdfF := some f } x
          = (f x).bind (pyExp lib)) ∧
      (Distribution.logcdf lib { Distribution.empty with cdfF := some f } x
          = (f x).bind (pyLog lib)) ∧
      (Distribution.logpdf { Distribution.empty with pdfF := some f } x
          = .error (.typeError "NoneType object is not callable")) ∧
      (Distribution.pdf lib Distribution.empty x
          = .error (.notImplemented
              "The function pdf is not implemented for object of class Distribution")) ∧
      (Distribution.cdf lib Distribution.empty x
          = .error (.notImplemented
              "The function cdf is not implemented for object of class Distribution")) ∧
      (Distribution.logcdf lib Distribution.empty x
          = .error (.notImplemented
              "The function logcdf is not implemented for object of class Distribution")) ∧
      (Distribution.logpdf Distribution.empty x
          = .error (.typeError "NoneType object is not callable")) :=
  fun _ _ _ => ⟨rfl, rfl, rfl, rfl, rfl, rfl, rfl, rfl⟩

/-- C6: matrix-multiplying any generic Distribution by a Dirac never
produces the advertised lazy distribution: the eagerly evaluated
keyword argument `var=delta @ self.var @ delta.T` applies matmul to the
bound method object `self.var`, raising a TypeError at the call, for
array and for scalar Dirac values alike. -/
theorem claim6_matmul_raises :
    ∀ (d : Distribution) (xs : List ℚ) (q : ℚ),
      (Distribution.matmul d (.ofDist (.dirac (.vec xs)))
          = .error (.typeError "unsupported operand type for matmul")) ∧
      (Distribution.matmul d (.ofDist (.dirac (.num q)))
          = .error (.typeError "unsupported operand type for matmul")) :=
  fun _ _ _ => ⟨rfl, rfl⟩

/-- C7: multiplying two Normals and raising a Normal to an integer
power both return the unsupported-operation error naming the two
operand classes, directly at the call. -/
theorem claim7_unsupported :
    (Normal.mul ⟨.num 0, .num 1, false⟩ (.ofDist (.normal ⟨.num 0, .num 1, false⟩))
        = .error (.notImplemented "Multiplication not implemented for Normal and Normal.")) ∧
    (Normal.powOp ⟨.num 0, .num 1, false⟩ (.ofVal (.num 2))
        = .error (.notImplemented "Exponentiation not implemented for Normal and int.")) :=
  ⟨rfl, rfl⟩

/-- A generic distribution with a 2-element array mean and no other
capabilities, for probing the RandomVariable constructor. -/
def gVec : Distribution := { Distribution.empty with meanF := some (.ok (.vec [1, 2])) }

/-- C3 counterexample: the claim says binary RandomVariable operators
re-derive shape and dtype from the resulting distribution, but
`_rv_from_op` wraps with the default scalar shape, so an operation
whose resulting distribution has an array mean fails with the
shape-mismatch ValueError even though the distribution-level operation
is defined. -/
theorem claim3_counterexample :
    RandomVariable.add libZero ⟨[2], some "float", .generic gVec⟩ (.ofVal (.num 5))
      = .error (.valueError "Shape of distribution mean and given shape do not match.") :=
  rfl

/-- C3 as amended: each binary operator coerces the other operand,
applies the corresponding distribution operator and wraps the result in
a fresh RandomVariable built with the default scalar shape; the
constructor re-derives the dtype from the resulting mean, and the wrap
succeeds exactly when that mean has the scalar shape. -/
theorem claim3_rv_from_op :
    ∀ (op : DistObj → DistObj → Except Err DistObj) (a : RandomVariable) (other : RVObj)
      (orv : RandomVariable) (d : DistObj) (m : PyVal),
      asrandomvariable other = .ok orv →
      op a.dist orv.dist = .ok d →
      DistObj.mean d = .ok m →
      shapeOf m = [] →
      RandomVariable.rvFromOp op a other = .ok ⟨[], some (dtypeOf m), d⟩ := by
  intro op a other orv d m h1 h2 h3 h4
  simp [RandomVariable.rvFromOp, RandomVariable.make, h1, h2, h3, h4]

/-- C3 witness: Dirac(2) + 3 at the RandomVariable layer gives a fresh
scalar-shaped RandomVariable wrapping Dirac(5). -/
theorem claim3_witness :
    RandomVariable.rvFromOp (DistObj.addOp libZero) ⟨[], some "int", .dirac (.num 2)⟩
        (.ofVal (.num 3))
      = .ok ⟨[], some (dtypeOf (.num (2 + 3))), .dirac (.num (2 + 3))⟩ :=
  claim3_rv_from_op (DistObj.addOp libZero) ⟨[], some "int", .dirac (.num 2)⟩
    (.ofVal (.num 3)) ⟨[], some "int", .dirac (.num 3)⟩ (.dirac (.num (2 + 3)))
    (.num (2 + 3)) rfl rfl rfl rfl

/-- A generic distribution with scalar mean 3 and no other
capabilities, for probing division. -/
def g3 : Distribution := { Distribution.empty with meanF := some (.ok (.num 3)) }

/-- C5 counterexample: dividing by a Dirac whose support is the integer
zero does not raise the division-by-zero error; the `other == 0` guard
compares the Dirac object itself, which is never equal to 0, so the
call proceeds to `self * operator.inv(otherdist)` and returns a scaled
distribution with mean 3 * (-1). -/
theorem claim5_counterexample :
    (Distribution.truediv libZero g3 (.ofDist (.dirac (.num 0)))).bind DistObj.mean
      = .ok (.num (-3)) := by
  norm_num [Distribution.truediv, pyEqZero, asdistribution, pyinvert, Distribution.mul,
    pyValEqZero, Distribution.mulDirac, DistObj.mean, Distribution.mean, g3,
    Distribution.empty, pymul, liftBin]

/-- C5 as amended: dividing by the raw scalar 0 raises ZeroDivision
immediately; a Dirac divisor — zero support included — never triggers
that guard, and division by a Dirac with integer support q is defined
as multiplication by the in-place bitwise-inverted Dirac, i.e.
`self * Dirac(-q-1)` (so the inverse is the bitwise complement, not
the reciprocal). -/
theorem claim5_division :
    (∀ (lib : StatsLib) (d : Distribution),
      Distribution.truediv lib d (.ofVal (.num 0))
        = .error (.zeroDivision "Division by zero not supported.")) ∧
    (∀ (lib : StatsLib) (d : Distribution) (q : ℚ), q.den = 1 →
      Distribution.truediv lib d (.ofDist (.dirac (.num q)))
        = Distribution.mul lib d (.ofDist (.dirac (.num (-q - 1))))) := by
  constructor
  · intro lib d
    rfl
  · intro lib d q h
    simp [Distribution.truediv, pyEqZero, asdistribution, pyinvert, h]

/-- C5 witness: dividing by Dirac(2) is multiplying by Dirac(-3), and
dividing by the scalar 0 raises. -/
theorem claim5_witness :
    (Distribution.truediv libZero Distribution.empty (.ofDist (.dirac (.num 2)))
        = Distribution.mul libZero Distribution.empty (.ofDist (.dirac (.num (-2 - 1))))) ∧
    (Distribution.truediv libZero Distribution.empty (.ofVal (.num 0))
        = .error (.zeroDivision "Division by zero not supported.")) :=
  ⟨claim5_division.2 libZero Distribution.empty 2 rfl,
    claim5_division.1 libZero Distribution.empty⟩

/-- C8 counterexample: sampling `Dirac(0.) + Dirac(1.)` at size 1
returns the bare scalar 1, not a length-1 array filled with 1. -/
theorem claim8_counterexample :
    ((Dirac.add libZero (.num 0) (.ofDist (.dirac (.num 1)))).bind
        (fun d => DistObj.sample libZero d 1) = .ok (.num 1)) ∧
    PyVal.num 1 ≠ PyVal.vec [1] := by
  refine ⟨?_, by decide⟩
  norm_num [Dirac.add, asdistribution, pyadd, liftBin, DistObj.sample, Dirac.sample]

/-- C8 as amended: after `Dirac(0.) + Dirac(1.)`, sampling at any size
other than 1 returns an array of that size filled with 1; size 1
returns the raw scalar support. -/
theorem claim8_sample :
    ∀ (lib : StatsLib) (size : Nat), size ≠ 1 →
      (Dirac.add lib (.num 0) (.ofDist (.dirac (.num 1)))).bind
          (fun d => DistObj.sample lib d size)
        = .ok (.vec (List.replicate size 1)) := by
  intro lib size h
  simp [Dirac.add, asdistribution, pyadd, liftBin, DistObj.sample, Dirac.sample, h,
    pymul, List.map_replicate]

/-- C8 witness: the doctest size 5 yields the array of five ones. -/
theorem claim8_witness :
    (Dirac.add libZero (.num 0) (.ofDist (.dirac (.num 1)))).bind
        (fun d => DistObj.sample libZero d 5)
      = .ok (.vec (List.replicate 5 1)) :=
  claim8_sample libZero 5 (by decide)

/-- Successful run of a binary in-place Dirac operator: the combined
value is written into the left object and that same object is
returned. -/
theorem dirac_binS_ok (op : PyVal → PyVal → Except Err PyVal) {st : DiracStore}
    {r1 r2 : Nat} {v1 v2 v : PyVal}
    (h1 : storeGet st r1 = .ok v1) (h2 : storeGet st r2 = .ok v2)
    (h3 : op v1 v2 = .ok v) :
    Dirac.binS op st r1 r2 = .ok (st.set r1 v, r1) := by
  simp [Dirac.binS, h1, h2, h3]

/-- Successful run of a unary in-place Dirac operator. -/
theorem dirac_unS_ok (op : PyVal → Except Err PyVal) {st : DiracStore}
    {r : Nat} {v w : PyVal}
    (h1 : storeGet st r = .ok v) (h2 : op v = .ok w) :
    Dirac.unS op st r = .ok (st.set r w, r) := by
  simp [Dirac.unS, h1, h2]

/-- C4: for every pair of live Dirac objects and each of the six binary
operators, whenever the arithmetic primitive on the two supports is
defined, the operator overwrites the left operand's support parameter
in place with the combined value and returns that very same object,
not a new one. -/
theorem claim4_dirac_inplace :
    (∀ (st : DiracStore) (r1 r2 : Nat) (v1 v2 v : PyVal),
      storeGet st r1 = .ok v1 → storeGet st r2 = .ok v2 → pyadd v1 v2 = .ok v →
      Dirac.addS st r1 r2 = .ok (st.set r1 v, r1)) ∧
    (∀ (st : DiracStore) (r1 r2 : Nat) (v1 v2 v : PyVal),
      storeGet st r1 = .ok v1 → storeGet st r2 = .ok v2 → pysub v1 v2 = .ok v →
      Dirac.subS st r1 r2 = .ok (st.set r1 v, r1)) ∧
    (∀ (st : DiracStore) (r1 r2 : Nat) (v1 v2 v : PyVal),
      storeGet st r1 = .ok v1 → storeGet st r2 = .ok v2 → pymul v1 v2 = .ok v →
      Dirac.mulS st r1 r2 = .ok (st.set r1 v, r1)) ∧
    (∀ (st : DiracStore) (r1 r2 : Nat) (v1 v2 v : PyVal),
      storeGet st r1 = .ok v1 → storeGet st r2 = .ok v2 → pymatmul v1 v2 = .ok v →
      Dirac.matmulS st r1 r2 = .ok (st.set r1 v, r1)) ∧
    (∀ (st : DiracStore) (r1 r2 : Nat) (v1 v2 v : PyVal),
      storeGet st r1 = .ok v1 → storeGet st r2 = .ok v2 → pydiv v1 v2 = .ok v →
      Dirac.truedivS st r1 r2 = .ok (st.set r1 v, r1)) ∧
    (∀ (st : DiracStore) (r1 r2 : Nat) (v1 v2 v : PyVal),
      storeGet st r1 = .ok v1 → storeGet st r2 = .ok v2 → pypow v1 v2 = .ok v →
      Dirac.powS st r1 r2 = .ok (st.set r1 v, r1)) :=
  ⟨fun _ _ _ _ _ _ h1 h2 h3 => dirac_binS_ok pyadd h1 h2 h3,
    fun _ _ _ _ _ _ h1 h2 h3 => dirac_binS_ok pysub h1 h2 h3,
    fun _ _ _ _ _ _ h1 h2 h3 => dirac_binS_ok pymul h1 h2 h3,
    fun _ _ _ _ _ _ h1 h2 h3 => dirac_binS_ok pymatmul h1 h2 h3,
    fun _ _ _ _ _ _ h1 h2 h3 => dirac_binS_ok pydiv h1 h2 h3,
    fun _ _ _ _ _ _ h1 h2 h3 => dirac_binS_ok pypow h1 h2 h3⟩

/-- C4 witness: the six in-place operators evaluated on concrete
stores of two Dirac objects. -/
theorem claim4_witness :
    (Dirac.addS [.num 6, .num 3] 0 1
        = .ok ([PyVal.num 6, PyVal.num 3].set 0 (.num (6 + 3)), 0)) ∧
    (Dirac.subS [.num 6, .num 3] 0 1
        = .ok ([PyVal.num 6, PyVal.num 3].set 0 (.num (6 - 3)), 0)) ∧
    (Dirac.mulS [.num 6, .num 3] 0 1
        = .ok ([PyVal.num 6, PyVal.num 3].set 0 (.num (6 * 3)), 0)) ∧
    (Dirac.matmulS [.vec [1, 2], .vec [3, 4]] 0 1
        = .ok ([PyVal.vec [1, 2], PyVal.vec [3, 4]].set 0 (.num (dotL [1, 2] [3, 4])), 0)) ∧
    (Dirac.truedivS [.num 6, .num 3] 0 1
        = .ok ([PyVal.num 6, PyVal.num 3].set 0 (.num (6 / 3)), 0)) ∧
    (Dirac.powS [.num 6, .num 3] 0 1
        = .ok ([PyVal.num 6, PyVal.num 3].set 0 (.num (6 ^ (3 : ℚ).num)), 0)) :=
  ⟨claim4_dirac_inplace.1 [.num 6, .num 3] 0 1 (.num 6) (.num 3) (.num (6 + 3)) rfl rfl rfl,
    claim4_dirac_inplace.2.1 [.num 6, .num 3] 0 1 (.num 6) (.num 3) (.num (6 - 3)) rfl rfl rfl,
    claim4_dirac_inplace.2.2.1 [.num 6, .num 3] 0 1 (.num 6) (.num 3) (.num (6 * 3)) rfl rfl rfl,
    claim4_dirac_inplace.2.2.2.1 [.vec [1, 2], .vec [3, 4]] 0 1 (.vec [1, 2]) (.vec [3, 4])
      (.num (dotL [1, 2] [3, 4])) rfl rfl rfl,
    claim4_dirac_inplace.2.2.2.2.1 [.num 6, .num 3] 0 1 (.num 6) (.num 3) (.num (6 / 3))
      rfl rfl rfl,
    claim4_dirac_inplace.2.2.2.2.2 [.num 6, .num 3] 0 1 (.num 6) (.num 3)
      (.num (6 ^ (3 : ℚ).num)) rfl rfl rfl⟩

/-- C9: each unary Dirac operator (negation, unary plus, absolute
value, inversion) overwrites the support of the very object it is
applied to and returns that same object; consequently subtracting a
live Dirac from a generic Distribution or from a Normal — both
implemented as `self + (-otherdist)` — leaves the operand permanently
negated in the store, visible to every other holder of the object. -/
theorem claim9_dirac_mutation :
    (∀ (st : DiracStore) (r : Nat) (v w : PyVal),
      storeGet st r = .ok v → pyneg v = .ok w → Dirac.negS st r = .ok (st.set r w, r)) ∧
    (∀ (st : DiracStore) (r : Nat) (v w : PyVal),
      storeGet st r = .ok v → pypos v = .ok w → Dirac.posS st r = .ok (st.set r w, r)) ∧
    (∀ (st : DiracStore) (r : Nat) (v w : PyVal),
      storeGet st r = .ok v → pyabs v = .ok w → Dirac.absS st r = .ok (st.set r w, r)) ∧
    (∀ (st : DiracStore) (r : Nat) (v w : PyVal),
      storeGet st r = .ok v → pyinvert v = .ok w → Dirac.invS st r = .ok (st.set r w, r)) ∧
    (∀ (lib : StatsLib) (g : Distribution) (st : DiracStore) (r : Nat) (v w : PyVal),
      storeGet st r = .ok v → pyneg v = .ok w →
      Distribution.subS lib g st r
        = .ok (st.set r w, Distribution.addDirac lib g w)) ∧
    (∀ (n : Normal) (st : DiracStore) (r : Nat) (v w m2 : PyVal) (nd : Normal),
      storeGet st r = .ok v → pyneg v = .ok w → pyadd n.mean w = .ok m2 →
      Normal.make m2 n.cov = .ok nd →
      Normal.subS n st r = .ok (st.set r w, .normal nd)) := by
  refine ⟨?_, ?_, ?_, ?_, ?_, ?_⟩
  · exact fun _ _ _ _ h1 h2 => dirac_unS_ok pyneg h1 h2
  · exact fun _ _ _ _ h1 h2 => dirac_unS_ok pypos h1 h2
  · exact fun _ _ _ _ h1 h2 => dirac_unS_ok pyabs h1 h2
  · exact fun _ _ _ _ h1 h2 => dirac_unS_ok pyinvert h1 h2
  · intro lib g st r v w h1 h2
    have hn : Dirac.negS st r = .ok (st.set r w, r) := dirac_unS_ok pyneg h1 h2
    have hg : storeGet (st.set r w) r = .ok w := storeGet_set w h1
    simp [Distribution.subS, hn, hg]
  · intro n st r v w m2 nd h1 h2 h3 h4
    have hn : Dirac.negS st r = .ok (st.set r w, r) := dirac_unS_ok pyneg h1 h2
    have hg : storeGet (st.set r w) r = .ok w := storeGet_set w h1
    simp [Normal.subS, hn, hg, h3, h4]

/-- C9 witness: the four unary mutations and both subtraction side
effects evaluated on concrete stores. -/
theorem claim9_witness :
    (Dirac.negS [.num 4] 0 = .ok ([PyVal.num 4].set 0 (.num (-4)), 0)) ∧
    (Dirac.posS [.num 4] 0 = .ok ([PyVal.num 4].set 0 (.num 4), 0)) ∧
    (Dirac.absS [.num (-4)] 0 = .ok ([PyVal.num (-4)].set 0 (.num |(-4 : ℚ)|), 0)) ∧
    (Dirac.invS [.num 7] 0 = .ok ([PyVal.num 7].set 0 (.num (-7 - 1)), 0)) ∧
    (Distribution.subS libZero Distribution.empty [.num 2] 0
        = .ok ([PyVal.num 2].set 0 (.num (-2)),
            Distribution.addDirac libZero Distribution.empty (.num (-2)))) ∧
    (Normal.subS ⟨.num 1, .num 4, false⟩ [.num 1] 0
        = .ok ([PyVal.num 1].set 0 (.num (-1)),
            .normal ⟨.num (1 + -1), .num 4, false⟩)) :=
  ⟨claim9_dirac_mutation.1 [.num 4] 0 (.num 4) (.num (-4)) rfl rfl,
    claim9_dirac_mutation.2.1 [.num 4] 0 (.num 4) (.num 4) rfl rfl,
    claim9_dirac_mutation.2.2.1 [.num (-4)] 0 (.num (-4)) (.num |(-4 : ℚ)|) rfl rfl,
    claim9_dirac_mutation.2.2.2.1 [.num 7] 0 (.num 7) (.num (-7 - 1)) rfl rfl,
    claim9_dirac_mutation.2.2.2.2.1 libZero Distribution.empty [.num 2] 0 (.num 2)
      (.num (-2)) rfl rfl,
    claim9_dirac_mutation.2.2.2.2.2 ⟨.num 1, .num 4, false⟩ [.num 1] 0 (.num 1)
      (.num (-1)) (.num (1 + -1)) ⟨.num (1 + -1), .num 4, false⟩ rfl rfl rfl rfl⟩

/-- C10: the RandomVariable constructor always evaluates
`distribution.mean()` (its guard is always true), so any error the
mean raises — in particular the capability error of a distribution
with neither a mean function nor a mean parameter, such as the
sampling-only result of abs on a generic Distribution or on a
Normal — propagates and construction fails. -/
theorem claim10_rv_needs_mean :
    (∀ (shape : List Nat) (dt : Option String) (d : DistObj) (e : Err),
      DistObj.mean d = .error e → RandomVariable.make shape dt d = .error e) ∧
    (∀ (shape : List Nat) (dt : Option String) (g : Distribution),
      RandomVariable.make shape dt (.generic (Distribution.abs g))
        = .error (.notImplemented
            "The function mean is not implemented for object of class Distribution")) ∧
    (∀ (lib : StatsLib) (shape : List Nat) (dt : Option String) (n : Normal),
      RandomVariable.make shape dt (.generic (Normal.absN lib n))
        = .error (.notImplemented
            "The function mean is not implemented for object of class Distribution")) := by
  refine ⟨?_, ?_, ?_⟩
  · intro shape dt d e h
    simp [RandomVariable.make, h]
  · intro shape dt g
    rfl
  · intro lib shape dt n
    rfl

/-- C10 witness: constructing a RandomVariable from the empty generic
distribution fails with the mean capability error. -/
theorem claim10_witness :
    RandomVariable.make [] none (.generic Distribution.empty)
      = .error (.notImplemented
          "The function mean is not implemented for object of class Distribution") :=
  claim10_rv_needs_mean.1 [] none (.generic Distribution.empty)
    (.notImplemented "The function mean is not implemented for object of class Distribution")
    rfl

end Probnum
